import Mathlib

/-!
Shallow embedding of the Store layer of src/app.py (items budgeting prototype).

The persisted state (two SQLite tables, `categories` and `clicks`) is modelled
as a pair of lists kept in ascending id order: SQLite assigns a fresh
INTEGER PRIMARY KEY as max(existing id) + 1 and every insert appends, so the
stored order coincides with `ORDER BY id`.  SQLite REAL columns
(`unit_value`, `amount`) are modelled as `Rat`; no claim performs arithmetic
on them, only storage and retrieval, so the exact numeric carrier is
irrelevant.  SQLite TEXT comparison is byte-wise (BINARY collation); on the
ASCII date and timestamp strings used here every character is one UTF-8
byte, so memcmp order is the code-point-wise lexicographic order, which
`bytesLt` below implements directly.

The code never executes `PRAGMA foreign_keys = ON`, so the foreign key
declared on `clicks.category_id` is NOT enforced by SQLite at runtime; the
embedding of `record_click` reflects that (it always inserts).

Wall-clock inputs are made explicit: `record_click` receives the string that
`datetime.utcnow().isoformat()` produced, and `clicks_this_period` receives
the calendar date that `date.today()` produced.  `date.today()` is the LOCAL
calendar date, which can differ from the UTC calendar date; a `Clock` record
carries both so that statements can relate them.
-/

namespace ItemsApp

/-- Calendar date as produced by Python `datetime.date`. -/
structure Date where
  year : Nat
  month : Nat
  day : Nat
deriving DecidableEq, Repr

/-- Decimal digits of `n` left-padded to width 2, as `date.isoformat` renders months and days. -/
def pad2 (n : Nat) : String :=
  if n < 10 then "0" ++ toString n else toString n

/-- Decimal digits of `n` left-padded to width 4, as `date.isoformat` renders years. -/
def pad4 (n : Nat) : String :=
  if n < 10 then "000" ++ toString n
  else if n < 100 then "00" ++ toString n
  else if n < 1000 then "0" ++ toString n
  else toString n

/-- Python `date.isoformat()`: the string YYYY-MM-DD. -/
def Date.isoformat (d : Date) : String :=
  pad4 d.year ++ "-" ++ pad2 d.month ++ "-" ++ pad2 d.day

/-- One row of the `categories` table (src/app.py lines 19-27). -/
structure Category where
  id : Nat
  name : String
  items_per_period : Int
  unit_value : Rat
  unit_label : String
deriving DecidableEq, Repr

/-- One row of the `clicks` table (src/app.py lines 28-37). -/
structure Click where
  id : Nat
  category_id : Nat
  ts : String
  reason : String
  amount : Rat
deriving DecidableEq, Repr

/-- The persisted store: both tables, rows in ascending id order. -/
structure DB where
  categories : List Category
  clicks : List Click
deriving DecidableEq, Repr

/-- Errors surfaced by the sqlite3 driver that the code can hit: the UNIQUE
constraint violation raised by a duplicate category name. -/
inductive SqlError where
  | integrityError
deriving DecidableEq, Repr

/-- SQLite rowid assignment for `categories`: max existing id + 1 (1 when empty). -/
def nextCatId (db : DB) : Nat :=
  (db.categories.map (fun c => c.id)).foldl Nat.max 0 + 1

/-- SQLite rowid assignment for `clicks`: max existing id + 1 (1 when empty). -/
def nextClickId (db : DB) : Nat :=
  (db.clicks.map (fun c => c.id)).foldl Nat.max 0 + 1

/-- src/app.py lines 63-69: SELECT ... FROM categories ORDER BY id.  Rows are
kept in id order by construction, so the query returns the list as stored. -/
def list_categories (db : DB) : List Category :=
  db.categories

/-- src/app.py lines 72-78: INSERT INTO categories.  The UNIQUE constraint on
`name` (BINARY collation, hence case-sensitive string equality) makes the
insert raise `sqlite3.IntegrityError` exactly when a row with the same name
exists; on that error nothing is committed.  The function performs no input
validation of its own. -/
def create_category (db : DB) (name : String) (items_per_period : Int)
    (unit_value : Rat) (unit_label : String) : Except SqlError DB :=
  if db.categories.any (fun c => c.name == name) then
    Except.error SqlError.integrityError
  else
    Except.ok { db with categories :=
      db.categories ++ [⟨nextCatId db, name, items_per_period, unit_value, unit_label⟩] }

/-- src/app.py lines 81-87: INSERT INTO clicks with `now` the string produced
by `datetime.utcnow().isoformat()`.  Foreign keys are not enabled on the
connection, so the insert succeeds for any `category_id`, and no validation
of `amount` is performed. -/
def record_click (db : DB) (category_id : Nat) (now : String)
    (reason : String) (amount : Rat) : DB :=
  { db with clicks := db.clicks ++ [⟨nextClickId db, category_id, now, reason, amount⟩] }

/-- The id returned by SELECT id FROM clicks ORDER BY id DESC LIMIT 1 on a
nonempty table: the maximum click id. -/
def maxClickId (db : DB) : Nat :=
  (db.clicks.map (fun c => c.id)).foldl Nat.max 0

/-- src/app.py lines 90-98: fetch the highest click id if any row exists and
DELETE WHERE id equals it; otherwise do nothing. -/
def undo_last_click (db : DB) : DB :=
  match db.clicks with
  | [] => db
  | _ :: _ => { db with clicks := db.clicks.filter (fun c => c.id != maxClickId db) }

/-- One iteration of the seeding loop in src/app.py lines 54-58: the INSERT
of add_default_categories with `except sqlite3.IntegrityError: pass`, i.e. a
name collision is silently skipped. -/
def seedOne (db : DB) (name : String) (items_per_period : Int)
    (unit_value : Rat) (unit_label : String) : DB :=
  match create_category db name items_per_period unit_value unit_label with
  | Except.ok db2 => db2
  | Except.error _ => db

/-- src/app.py lines 46-60: insert the three fixed starter categories,
skipping any whose name already exists.  The Python literal 0.7 is modelled
as the rational 7/10; no claim computes with unit values. -/
def add_default_categories (db : DB) : DB :=
  seedOne (seedOne (seedOne db "Burgers" 3 16 "burger")
    "Equipement" 3 60 "equip") "Bonbons" 20 (7/10) "bonbon"

/-- src/app.py lines 158-163: os.remove(DB_PATH) followed by init_db()
recreates the empty schema, discarding all rows of both tables. -/
def resetAll (_db : DB) : DB :=
  { categories := [], clicks := [] }

/-- The `start` bound of src/app.py line 118: date(year, month, 1).isoformat(). -/
def periodStart (year month : Nat) : String :=
  (Date.mk year month 1).isoformat

/-- The `next_month` bound of src/app.py lines 120-123: first day of January
of year+1 when month = 12, else first day of month+1. -/
def periodEnd (year month : Nat) : String :=
  if month = 12 then (Date.mk (year + 1) 1 1).isoformat
  else (Date.mk year (month + 1) 1).isoformat

/-- SQLite BINARY collation on TEXT: memcmp on the UTF-8 bytes.  All strings
compared by the code are ASCII, where memcmp coincides with this
code-point-wise lexicographic order (a strict prefix sorts first). -/
def bytesLt : List Char → List Char → Bool
  | [], [] => false
  | [], _ :: _ => true
  | _ :: _, [] => false
  | a :: as, b :: bs =>
    if a.toNat < b.toNat then true
    else if b.toNat < a.toNat then false
    else bytesLt as bs

/-- Strict TEXT comparison `a < b` as evaluated by SQLite. -/
def strLt (a b : String) : Bool :=
  bytesLt a.data b.data

/-- TEXT comparison `a <= b` as evaluated by SQLite (byte order is total). -/
def strLe (a b : String) : Bool :=
  !(strLt b a)

/-- The WHERE clause of src/app.py line 124 restricted to the time window:
ts >= start AND ts < next_month, compared as TEXT. -/
def inPeriod (year month : Nat) (ts : String) : Bool :=
  strLe (periodStart year month) ts && strLt ts (periodEnd year month)

/-- src/app.py lines 111-127: count the clicks of `category_id` whose
timestamp lies in the half-open month window.  When either optional argument
is absent, both default to the year and month of `today`, the value of
`date.today()` (the LOCAL calendar date). -/
def clicks_this_period (db : DB) (category_id : Nat) (today : Date)
    (year month : Option Nat) : Nat :=
  let ym : Nat × Nat :=
    match year, month with
    | some y, some m => (y, m)
    | _, _ => (today.year, today.month)
  (db.clicks.filter (fun c => c.category_id == category_id && inPeriod ym.1 ym.2 c.ts)).length

/-- The wall clock seen by the process: the UTC calendar date (the date part
of `datetime.utcnow()`) and the local calendar date (`date.today()`).  They
differ whenever the local timezone offset moves the local clock across
midnight relative to UTC. -/
structure Clock where
  utcToday : Date
  localToday : Date
deriving DecidableEq, Repr

/-- src/app.py lines 213: the `used` figure of the period summary, the
current-month click count of category `c`. -/
def period_summary_used (db : DB) (today : Date) (c : Category) : Int :=
  (clicks_this_period db c.id today none none : Int)

/-- src/app.py line 214: remaining = max(0, items_per_period - used). -/
def period_summary_remaining (db : DB) (today : Date) (c : Category) : Int :=
  max 0 (c.items_per_period - period_summary_used db today c)

/-- A store holding one click stamped at the last second of December 2023. -/
def dbDecemberClick : DB :=
  ⟨[], [⟨1, 5, "2023-12-31T23:59:59", "r", 1⟩]⟩

/-- A store holding one click stamped exactly at midnight of 2024-01-01. -/
def dbJanuaryClick : DB :=
  ⟨[], [⟨1, 5, "2024-01-01T00:00:00", "r", 1⟩]⟩

/-- A store holding one click recorded at 2023-12-31T23:30 UTC. -/
def dbBoundary : DB :=
  ⟨[⟨1, "Burgers", 3, 16, "burger"⟩], [⟨1, 1, "2023-12-31T23:30:00", "r", 1⟩]⟩

/-- A wall clock at which UTC is still 2023-12-31 while the local calendar
date (with a positive UTC offset) has already reached 2024-01-01. -/
def clockBoundary : Clock :=
  ⟨⟨2023, 12, 31⟩, ⟨2024, 1, 1⟩⟩

/-- A category with a quota of 3 items per period. -/
def catOver : Category :=
  ⟨1, "C", 3, 1, "i"⟩

/-- A store where category 1 (quota 3) has five clicks during January 2024. -/
def dbOver : DB :=
  ⟨[catOver],
   [⟨1, 1, "2024-01-03T10:00:00", "r", 1⟩, ⟨2, 1, "2024-01-05T10:00:00", "r", 1⟩,
    ⟨3, 1, "2024-01-10T10:00:00", "r", 1⟩, ⟨4, 1, "2024-01-15T10:00:00", "r", 1⟩,
    ⟨5, 1, "2024-01-20T10:00:00", "r", 1⟩]⟩

/-- The store produced by seeding a fresh schema: the three starter
categories with ids 1, 2, 3 and no click events. -/
def defaultsDB : DB :=
  ⟨[⟨1, "Burgers", 3, 16, "burger"⟩, ⟨2, "Equipement", 3, 60, "equip"⟩,
    ⟨3, "Bonbons", 20, 7/10, "bonbon"⟩], []⟩

/-- A two-click store used to exercise undo_last_click on a nonempty table. -/
def dbTwoClicks : DB :=
  ⟨[], [⟨1, 4, "t1", "r", 1⟩, ⟨2, 4, "t2", "r", 1⟩]⟩

/-- A one-category store used to exercise duplicate-name handling. -/
def dbOneCat : DB :=
  ⟨[⟨1, "A", 1, 1, "i"⟩], []⟩

/-! Helper lemmas about `List.foldl Nat.max`, the shape of the maximum-id
computation shared by `maxClickId` and the rowid assignment. -/

theorem le_foldl_max (l : List Nat) (a : Nat) : a ≤ l.foldl Nat.max a := by
  induction l generalizing a with
  | nil => exact Nat.le_refl a
  | cons x xs ih => exact Nat.le_trans (Nat.le_max_left a x) (ih (Nat.max a x))

theorem foldl_max_le_of_mem (l : List Nat) : ∀ (a x : Nat), x ∈ l → x ≤ l.foldl Nat.max a := by
  induction l with
  | nil => intro a x hx; cases hx
  | cons y ys ih =>
    intro a x hx
    rcases List.mem_cons.mp hx with h | h
    · subst h
      exact Nat.le_trans (Nat.le_max_right a x) (le_foldl_max ys (Nat.max a x))
    · exact ih (Nat.max a y) x h

theorem foldl_max_mem (l : List Nat) (a : Nat) :
    l.foldl Nat.max a = a ∨ l.foldl Nat.max a ∈ l := by
  induction l generalizing a with
  | nil => exact Or.inl rfl
  | cons x xs ih =>
    rcases ih (Nat.max a x) with h | h
    · rcases Nat.le_total a x with hax | hxa
      · refine Or.inr ?_
        have hmx : Nat.max a x = x := Nat.max_eq_right hax
        rw [List.foldl_cons, h, hmx]
        exact List.mem_cons_self x xs
      · refine Or.inl ?_
        have hmx : Nat.max a x = a := Nat.max_eq_left hxa
        rw [List.foldl_cons, h, hmx]
    · exact Or.inr (List.mem_cons_of_mem x h)

/-- Every nonempty click list has a member realizing the maximum id. -/
theorem exists_max_click (l : List Click) (hne : l ≠ []) :
    ∃ c, c ∈ l ∧ c.id = (l.map (fun k => k.id)).foldl Nat.max 0
      ∧ ∀ c2 ∈ l, c2.id ≤ c.id := by
  rcases foldl_max_mem (l.map (fun k => k.id)) 0 with h | h
  · cases l with
    | nil => exact absurd rfl hne
    | cons hd tl =>
      have hmem : hd.id ∈ ((hd :: tl).map (fun k => k.id)) :=
        List.mem_map_of_mem _ (List.mem_cons_self hd tl)
      have hle : hd.id ≤ ((hd :: tl).map (fun k => k.id)).foldl Nat.max 0 :=
        foldl_max_le_of_mem _ 0 _ hmem
      have hz : hd.id = 0 := Nat.le_antisymm (h ▸ hle) (Nat.zero_le _)
      refine ⟨hd, List.mem_cons_self hd tl, by rw [h, hz], ?_⟩
      intro c2 hc2
      have := foldl_max_le_of_mem ((hd :: tl).map (fun k => k.id)) 0 c2.id
        (List.mem_map_of_mem _ hc2)
      rw [h] at this
      rw [hz]
      exact this
  · rcases List.mem_map.mp h with ⟨c, hc, hcid⟩
    refine ⟨c, hc, hcid, ?_⟩
    intro c2 hc2
    rw [hcid]
    exact foldl_max_le_of_mem _ 0 _ (List.mem_map_of_mem _ hc2)

/-! Helper lemmas about the seeding step. -/

/-- An insertion whose name collides with an existing row is a no-op. -/
theorem seedOne_skip (db : DB) (n : String) (ip : Int) (uv : Rat) (ul : String)
    (h : db.categories.any (fun c => c.name == n) = true) :
    seedOne db n ip uv ul = db := by
  simp [seedOne, create_category, h]

/-- After seeding name `n`, a row named `n` exists. -/
theorem seedOne_hasName (db : DB) (n : String) (ip : Int) (uv : Rat) (ul : String) :
    ((seedOne db n ip uv ul).categories.any (fun c => c.name == n)) = true := by
  by_cases h : db.categories.any (fun c => c.name == n) = true
  · rw [seedOne_skip db n ip uv ul h]; exact h
  · simp [seedOne, create_category, h]

/-- Seeding preserves the presence of any already-present name. -/
theorem seedOne_mono (db : DB) (n : String) (ip : Int) (uv : Rat) (ul : String)
    (m : String) (h : db.categories.any (fun c => c.name == m) = true) :
    ((seedOne db n ip uv ul).categories.any (fun c => c.name == m)) = true := by
  by_cases h2 : db.categories.any (fun c => c.name == n) = true
  · rw [seedOne_skip db n ip uv ul h2]; exact h
  · simp [seedOne, create_category, h2, h]

/-- C1: clicks_this_period counts by a start-inclusive, end-exclusive window
on the timestamp string: for explicit (year, month) the count is exactly the
number of clicks of the category whose ts satisfies start <= ts < end; for
month 12 the end bound is the first of January of year+1; a click stamped
2023-12-31T23:59:59 is counted for (2023, 12) and not for (2024, 1), and a
click stamped exactly 2024-01-01T00:00:00 is counted for (2024, 1). -/
theorem clicks_this_period_halfOpen_interval :
    (∀ (db : DB) (category_id : Nat) (today : Date) (y m : Nat),
        clicks_this_period db category_id today (some y) (some m)
          = (db.clicks.filter (fun c =>
              c.category_id == category_id
                && (strLe (periodStart y m) c.ts && strLt c.ts (periodEnd y m)))).length)
  ∧ (∀ y : Nat, periodEnd y 12 = (Date.mk (y + 1) 1 1).isoformat)
  ∧ clicks_this_period dbDecemberClick 5 ⟨2020, 1, 1⟩ (some 2023) (some 12) = 1
  ∧ clicks_this_period dbDecemberClick 5 ⟨2020, 1, 1⟩ (some 2024) (some 1) = 0
  ∧ clicks_this_period dbJanuaryClick 5 ⟨2020, 1, 1⟩ (some 2024) (some 1) = 1 :=
  ⟨fun _ _ _ _ _ => rfl, fun _ => rfl, by decide, by decide, by decide⟩

/-- C2: the code does not implement the claimed behaviour.  The schema
declares FOREIGN KEY(category_id) REFERENCES categories(id), but the
connection never enables foreign key enforcement, so record_click against a
category id with no matching category row (here 999, on a store with no
categories at all) succeeds and inserts the click event instead of failing. -/
theorem record_click_unknown_category_inserted :
    record_click ⟨[], []⟩ 999 "2024-05-01T12:00:00" "r" 1
      = ⟨[], [⟨1, 999, "2024-05-01T12:00:00", "r", 1⟩]⟩ :=
  rfl

/-- C3 counterexample: createCategory with itemsPerPeriod = -5 and
unitValue = -1 is not rejected; the row is persisted and the call returns
successfully, refuting the claimed InvalidInput rejection. -/
theorem create_category_invalid_accepted :
    create_category ⟨[], []⟩ "x" (-5) (-1) "item"
      = Except.ok ⟨[⟨1, "x", -5, -1, "item"⟩], []⟩ :=
  rfl

/-- C3 amended: the store operations perform no input validation.
createCategory with a non-positive itemsPerPeriod, a negative unitValue, or
a name that is empty after trimming persists the row as given whenever the
name does not collide with an existing one, and recordClick with a
non-positive amount persists the click event. -/
theorem create_record_accept_invalid :
    (∀ (db : DB) (name : String) (ip : Int) (uv : Rat) (ul : String),
        (ip ≤ 0 ∨ uv < 0 ∨ name.trim = "") →
        db.categories.any (fun c => c.name == name) = false →
        create_category db name ip uv ul
          = Except.ok { db with categories :=
              db.categories ++ [⟨nextCatId db, name, ip, uv, ul⟩] })
  ∧ (∀ (db : DB) (category_id : Nat) (now reason : String) (amount : Rat),
        amount ≤ 0 →
        record_click db category_id now reason amount
          = { db with clicks :=
              db.clicks ++ [⟨nextClickId db, category_id, now, reason, amount⟩] }) := by
  constructor
  · intro db name ip uv ul _ hno
    simp [create_category, hno]
  · intro db category_id now reason amount _
    rfl

/-- Witness for the C3 amended theorem at concrete inputs. -/
theorem create_record_accept_invalid_witness :
    create_category ⟨[], []⟩ "y" (-3) 2 "item"
      = Except.ok ⟨[⟨1, "y", -3, 2, "item"⟩], []⟩
  ∧ record_click ⟨[], []⟩ 1 "2024-01-01T00:00:00" "r" (-2)
      = ⟨[], [⟨1, 1, "2024-01-01T00:00:00", "r", -2⟩]⟩ :=
  ⟨create_record_accept_invalid.1 ⟨[], []⟩ "y" (-3) 2 "item" (Or.inl (by decide)) (by decide),
   create_record_accept_invalid.2 ⟨[], []⟩ 1 "2024-01-01T00:00:00" "r" (-2) (by decide)⟩

/-- C4: creating a category whose name equals (case-sensitively, BINARY
collation) the name of an existing row raises the UNIQUE-constraint
IntegrityError and leaves list_categories unchanged: the transaction is
never committed, so the caller keeps the prior store. -/
theorem create_category_duplicate_rejected (db : DB) (name : String) (ip : Int)
    (uv : Rat) (ul : String)
    (h : db.categories.any (fun c => c.name == name) = true) :
    create_category db name ip uv ul = Except.error SqlError.integrityError
  ∧ list_categories ((create_category db name ip uv ul).toOption.getD db)
      = list_categories db := by
  have he : create_category db name ip uv ul = Except.error SqlError.integrityError := by
    simp [create_category, h]
  exact ⟨he, by rw [he]; rfl⟩

/-- Witness for C4 at a concrete store holding a category named A. -/
theorem create_category_duplicate_rejected_witness :
    create_category dbOneCat "A" 2 2 "j" = Except.error SqlError.integrityError
  ∧ list_categories ((create_category dbOneCat "A" 2 2 "j").toOption.getD dbOneCat)
      = list_categories dbOneCat :=
  create_category_duplicate_rejected dbOneCat "A" 2 2 "j" (by decide)

/-- C5 counterexample: the default period is taken from date.today, the
LOCAL calendar date, not from the UTC date.  At a wall clock where the local
date has reached 2024-01-01 while UTC is still 2023-12-31, a click recorded
at 2023-12-31T23:30 UTC gives a default count of 0, while the count for the
UTC year and month is 1. -/
theorem clicks_default_period_not_utc :
    clicks_this_period dbBoundary 1 clockBoundary.localToday none none = 0
  ∧ clicks_this_period dbBoundary 1 clockBoundary.localToday
      (some clockBoundary.utcToday.year) (some clockBoundary.utcToday.month) = 1
  ∧ clicks_this_period dbBoundary 1 clockBoundary.localToday none none
      ≠ clicks_this_period dbBoundary 1 clockBoundary.localToday
          (some clockBoundary.utcToday.year) (some clockBoundary.utcToday.month) :=
  ⟨by decide, by decide, by decide⟩

/-- C5 amended: when year and month are unspecified, clicks_this_period
counts clicks for the year and month of the current LOCAL calendar date
(the value of date.today), which coincides with the UTC date only when the
local clock has not crossed midnight relative to UTC. -/
theorem clicks_default_period_local :
    ∀ (db : DB) (category_id : Nat) (clock : Clock),
      clicks_this_period db category_id clock.localToday none none
        = clicks_this_period db category_id clock.localToday
            (some clock.localToday.year) (some clock.localToday.month) :=
  fun _ _ _ => rfl

/-- C6: on a store whose click table is nonempty (with the primary-key
invariant that ids are distinct), undo_last_click deletes exactly the single
click event with the highest id, independent of category; on an empty click
table it is a no-op and raises no error. -/
theorem undo_last_click_deletes_highest :
    (∀ db : DB, db.clicks = [] → undo_last_click db = db)
  ∧ (∀ db : DB, db.clicks ≠ [] → (db.clicks.map (fun c => c.id)).Nodup →
      ∃ c, c ∈ db.clicks ∧ (∀ c2 ∈ db.clicks, c2.id ≤ c.id) ∧
        ∀ x, x ∈ (undo_last_click db).clicks ↔ (x ∈ db.clicks ∧ x ≠ c)) := by
  constructor
  · intro db h
    rcases db with ⟨cats, clicks⟩
    simp only at h
    subst h
    rfl
  · intro db hne hnd
    rcases db with ⟨cats, clicks⟩
    simp only at hne hnd ⊢
    cases clicks with
    | nil => exact absurd rfl hne
    | cons hd tl =>
      obtain ⟨c, hcmem, hcid, hcmax⟩ := exists_max_click (hd :: tl) (by simp)
      refine ⟨c, hcmem, hcmax, ?_⟩
      intro x
      have hundo : (undo_last_click ⟨cats, hd :: tl⟩).clicks
          = (hd :: tl).filter (fun k => k.id != maxClickId ⟨cats, hd :: tl⟩) := rfl
      rw [hundo]
      have hMc : maxClickId ⟨cats, hd :: tl⟩ = c.id := hcid.symm
      rw [hMc]
      constructor
      · intro hx
        have hx2 := List.mem_filter.mp hx
        refine ⟨hx2.1, ?_⟩
        intro hxc
        have : (x.id != c.id) = true := hx2.2
        rw [hxc] at this
        simp at this
      · intro hx
        refine List.mem_filter.mpr ⟨hx.1, ?_⟩
        have hidne : x.id ≠ c.id := by
          intro hide
          exact hx.2 (List.inj_on_of_nodup_map hnd hx.1 hcmem hide)
        simpa using hidne

/-- Witness for C6: the empty store is untouched, and in a two-click store
the click with id 2 (the highest) is the one deleted. -/
theorem undo_last_click_deletes_highest_witness :
    undo_last_click ⟨[], []⟩ = ⟨[], []⟩
  ∧ (∃ c, c ∈ dbTwoClicks.clicks ∧ (∀ c2 ∈ dbTwoClicks.clicks, c2.id ≤ c.id) ∧
      ∀ x, x ∈ (undo_last_click dbTwoClicks).clicks ↔ (x ∈ dbTwoClicks.clicks ∧ x ≠ c)) :=
  ⟨undo_last_click_deletes_highest.1 ⟨[], []⟩ rfl,
   undo_last_click_deletes_highest.2 dbTwoClicks (by decide) (by decide)⟩

/-- C7: seeding is idempotent: a second run of add_default_categories
changes nothing, so no duplicate rows appear, no error is raised (the
function is total), and the length of list_categories is unchanged; a single
insertion whose name collides with an existing row is silently skipped. -/
theorem add_default_categories_idempotent :
    (∀ db : DB, add_default_categories (add_default_categories db) = add_default_categories db)
  ∧ (∀ db : DB,
      (list_categories (add_default_categories (add_default_categories db))).length
        = (list_categories (add_default_categories db)).length)
  ∧ (∀ (db : DB) (n : String) (ip : Int) (uv : Rat) (ul : String),
      db.categories.any (fun c => c.name == n) = true → seedOne db n ip uv ul = db) := by
  have hidem : ∀ db : DB,
      add_default_categories (add_default_categories db) = add_default_categories db := by
    intro db
    have hB1 := seedOne_hasName db "Burgers" 3 16 "burger"
    have hB2 := seedOne_mono (seedOne db "Burgers" 3 16 "burger")
      "Equipement" 3 60 "equip" "Burgers" hB1
    have hB3 := seedOne_mono (seedOne (seedOne db "Burgers" 3 16 "burger")
      "Equipement" 3 60 "equip") "Bonbons" 20 (7/10) "bonbon" "Burgers" hB2
    have hE2 := seedOne_hasName (seedOne db "Burgers" 3 16 "burger") "Equipement" 3 60 "equip"
    have hE3 := seedOne_mono (seedOne (seedOne db "Burgers" 3 16 "burger")
      "Equipement" 3 60 "equip") "Bonbons" 20 (7/10) "bonbon" "Equipement" hE2
    have hBo3 := seedOne_hasName (seedOne (seedOne db "Burgers" 3 16 "burger")
      "Equipement" 3 60 "equip") "Bonbons" 20 (7/10) "bonbon"
    show add_default_categories (add_default_categories db) = add_default_categories db
    unfold add_default_categories
    rw [seedOne_skip _ "Burgers" 3 16 "burger" hB3,
        seedOne_skip _ "Equipement" 3 60 "equip" hE3,
        seedOne_skip _ "Bonbons" 20 (7/10) "bonbon" hBo3]
  exact ⟨hidem, fun db => by rw [hidem db], fun db n ip uv ul h => seedOne_skip db n ip uv ul h⟩

/-- Witness for C7: a second seeding of a fresh store changes nothing, and a
seed insertion of an already-present name is skipped. -/
theorem add_default_categories_idempotent_witness :
    add_default_categories (add_default_categories ⟨[], []⟩) = add_default_categories ⟨[], []⟩
  ∧ seedOne dbOneCat "A" 2 2 "j" = dbOneCat :=
  ⟨add_default_categories_idempotent.1 ⟨[], []⟩,
   add_default_categories_idempotent.2.2 dbOneCat "A" 2 2 "j" (by decide)⟩

/-- C8: the derived remaining allowance equals max(0, itemsPerPeriod - used)
and is never negative; with quota 3 and five clicks counted in the period,
used is 5 and remaining is 0. -/
theorem remaining_never_negative :
    (∀ (db : DB) (today : Date) (c : Category),
        period_summary_remaining db today c
          = max 0 (c.items_per_period - period_summary_used db today c))
  ∧ (∀ (db : DB) (today : Date) (c : Category), 0 ≤ period_summary_remaining db today c)
  ∧ period_summary_used dbOver ⟨2024, 1, 15⟩ catOver = 5
  ∧ period_summary_remaining dbOver ⟨2024, 1, 15⟩ catOver = 0 :=
  ⟨fun _ _ _ => rfl, fun _ _ _ => le_max_left 0 _, by decide, by decide⟩

/-- C9: from any state, resetAll followed by add_default_categories yields
the store holding exactly the three default categories (ids 1, 2, 3) and
zero click events. -/
theorem reset_then_seed_defaults :
    (∀ db : DB, add_default_categories (resetAll db) = defaultsDB)
  ∧ defaultsDB.clicks = [] :=
  ⟨fun _ => rfl, rfl⟩

/-- C10: record_click and undo_last_click never modify the categories table:
list_categories returns the same rows before and after either call. -/
theorem record_undo_preserve_categories :
    (∀ (db : DB) (category_id : Nat) (now reason : String) (amount : Rat),
        list_categories (record_click db category_id now reason amount) = list_categories db)
  ∧ (∀ db : DB, list_categories (undo_last_click db) = list_categories db) := by
  refine ⟨fun _ _ _ _ _ => rfl, fun db => ?_⟩
  rcases db with ⟨cats, clicks⟩
  cases clicks <;> rfl

end ItemsApp
